import Mathlib

/-!
Shallow embedding of the libsubmit channel / launcher / provider core
(LocalChannel, SSHChannel, KubernetesProvider, launcher strategies).
Python dictionaries are modelled as association lists `List (String × String)`
with `dict.update` semantics; filesystems as finite maps from path strings to
contents and mode; exceptions as `Except`; the outcome of running an external
process or transport operation as an explicit `ExecOutcome` parameter.
-/

namespace Libsubmit

/-- Python `dict` of strings, in insertion order. -/
abbrev Dict := List (String × String)

/-- `d1.update(d2)`: every key of `d2` is (re)bound to `d2`'s value; keys of
`d1` keep their position, new keys of `d2` are appended (Python 3.7 dict
semantics). -/
def pyDictUpdate (d1 d2 : Dict) : Dict :=
  d1.map (fun kv => (kv.1, ((d2.lookup kv.1).getD kv.2)))
    ++ d2.filter (fun kv => (d1.lookup kv.1).isNone)

/-- Python `str.split(sep)` on a character list: every occurrence of the
separator starts a new group, empty groups included. -/
def pySplitList (sep : Char) : List Char → List (List Char)
  | [] => [[]]
  | c :: rest =>
    let r := pySplitList sep rest
    if c = sep then [] :: r
    else
      match r with
      | [] => [[c]]
      | g :: gs => (c :: g) :: gs

/-- Python `str.split(sep)` for a single-character separator. -/
def pySplit (sep : Char) (s : String) : List String :=
  (pySplitList sep s.data).map String.mk

/-- `listPrefixEq p l`: the characters `p` begin the characters `l`. -/
def listPrefixEq : List Char → List Char → Bool
  | [], _ => true
  | _ :: _, [] => false
  | a :: as, b :: bs => a = b && listPrefixEq as bs

/-- Python `s.startswith(p)`. -/
def strStartsWith (s p : String) : Bool := listPrefixEq p.data s.data

/-- Python `s.endswith(p)`. -/
def strEndsWith (s p : String) : Bool := listPrefixEq p.data.reverse s.data.reverse

/-- Python `s[n:]` (character based). -/
def strDropChars (s : String) (n : Nat) : String := String.mk (s.data.drop n)

/-- Whether the character occurs in the string. -/
def strHasChar (s : String) (c : Char) : Bool := s.data.contains c

/-- Index of the last occurrence of `c`, as `posixpath.split` uses `rfind`. -/
def lastIdxOf (c : Char) : List Char → Option Nat
  | [] => none
  | a :: rest =>
    match lastIdxOf c rest with
    | some i => some (i + 1)
    | none => if a = c then some 0 else none

/-- `posixpath.split(p)`: split after the last slash; the head keeps no
trailing slashes unless it is all slashes. -/
def osPathSplit (p : String) : String × String :=
  let cs := p.data
  let i := ((lastIdxOf '/' cs).map (· + 1)).getD 0
  let head := cs.take i
  let tail := cs.drop i
  let head :=
    if head ≠ [] ∧ ¬ (head.all (· = '/')) then
      (head.reverse.dropWhile (· = '/')).reverse
    else head
  (String.mk head, String.mk tail)

/-- `os.path.basename`. -/
def osPathBasename (p : String) : String := (osPathSplit p).2

/-- `os.path.dirname`. -/
def osPathDirname (p : String) : String := (osPathSplit p).1

/-- `posixpath.join(a, b)` for two components. -/
def osPathJoin (a b : String) : String :=
  if strStartsWith b "/" then b
  else if a = "" ∨ strEndsWith a "/" then a ++ b
  else a ++ "/" ++ b

/-- Outcome of handing a command to the operating system / transport: either
the process ran to completion with an exit status and captured output
streams, or the attempt failed (timeout, crash of the transport, ...) with an
exception message. This is the external-world parameter of `execute_wait`. -/
inductive ExecOutcome where
  | ok (retcode : Int) (stdout stderr : String)
  | fail (exc : String)
  deriving DecidableEq, Repr

/-- `LocalChannel.execute_wait` (local.py): `retcode` starts at `-1`; the
whole `Popen`/`wait`/`read` sequence is wrapped in `try/except`, and the
handler returns `(retcode, None, None)` after forcing a zero `retcode` to
`-1`; on success the decoded streams are returned. -/
def localExecuteWait (o : ExecOutcome) : Int × Option String × Option String :=
  let retcode : Int := -1
  match o with
  | .ok rc out err => (rc, some out, some err)
  | .fail _ => (if retcode = 0 then -1 else retcode, none, none)

/-- `SSHChannel.prepend_envs` (ssh.py): mutates the caller's `env` dict with
`env.update(self.envs)` and, when the merged dict is non-empty, prefixes the
command with `env K=V ...`. Returns the command string together with the
caller's dict as it is left after the call. -/
def prependEnvs (selfEnvs : Dict) (cmd : String) (env : Dict) : String × Dict :=
  let env := pyDictUpdate env selfEnvs
  if env.length > 0 then
    let envVars := " ".intercalate (env.map (fun kv => kv.1 ++ "=" ++ kv.2))
    ("env " ++ envVars ++ " " ++ cmd, env)
  else (cmd, env)

/-- `SSHChannel.execute_wait` (ssh.py): calls `prepend_envs` on the caller's
dict, then `exec_command` with **no** `try/except`: a transport failure or
timeout exception propagates to the caller. The second component is the
caller's `envs` dict after the call (mutated by `prepend_envs`). -/
def sshExecuteWait (selfEnvs : Dict) (cmd : String) (envs : Dict)
    (o : ExecOutcome) : Except String (Int × String × String) × Dict :=
  let pe := prependEnvs selfEnvs cmd envs
  (match o with
   | .ok rc out err => .ok (rc, out, err)
   | .fail e => .error e,
   pe.2)

/-- Environment seen by the command run by `LocalChannel`: at construction
`_envs = deepcopy(os.environ); _envs.update(envs)`, and at each call
`current_env = deepcopy(self._envs); current_env.update(envs)`. -/
def localObservableEnv (osEnviron channelEnvs callEnvs : Dict) : Dict :=
  pyDictUpdate (pyDictUpdate osEnviron channelEnvs) callEnvs

/-- Environment prefix produced by `SSHChannel.prepend_envs`: the caller's
per-call dict updated with the channel-level `self.envs`. -/
def sshMergedEnv (channelEnvs callEnvs : Dict) : Dict :=
  pyDictUpdate callEnvs channelEnvs

/-- The error classes of `libsubmit.channels.errors` raised by the channel
code under consideration (the errors module itself only wraps a message and
the hostname). -/
inductive ChannelError where
  | badScriptPath
  | badPermsScriptPath
  | fileCopyException
  | fileExists
  deriving DecidableEq, Repr

/-- A file: contents together with its permission bits. -/
structure FileRec where
  contents : String
  mode : Nat
  deriving DecidableEq, Repr

/-- The local machine's filesystem as seen by `os` / `shutil`: the current
working directory (relative paths resolve against it), the set of existing
directories (absolute) and the existing files (absolute path ↦ file). -/
structure LocalFS where
  cwd : String
  dirs : List String
  files : List (String × FileRec)
  deriving DecidableEq, Repr

/-- Remote filesystem as seen through the SFTP client: paths are used exactly
as the code passes them to paramiko. -/
structure RemoteFS where
  dirs : List String
  files : List (String × FileRec)
  deriving DecidableEq, Repr

/-- Resolution of a possibly relative path against the process cwd, as the
`os` functions do. -/
def osAbs (fs : LocalFS) (p : String) : String :=
  if strStartsWith p "/" then p else fs.cwd ++ "/" ++ p

/-- Bind (insert or overwrite) a path in a path↦file map. -/
def setFile (files : List (String × FileRec)) (p : String) (f : FileRec) :
    List (String × FileRec) :=
  if (files.lookup p).isSome then
    files.map (fun kv => if kv.1 = p then (p, f) else kv)
  else files ++ [(p, f)]

/-- `os.path.isdir`. -/
def osIsDir (fs : LocalFS) (p : String) : Bool :=
  (osAbs fs p) ∈ fs.dirs

/-- Names of the entries directly inside absolute directory `a`. -/
def childNames (a : String) (paths : List String) : List String :=
  paths.filterMap (fun q =>
    if strStartsWith q (a ++ "/") ∧ ¬ (strHasChar (strDropChars q (a.length + 1)) '/') then
      some (strDropChars q (a.length + 1))
    else none)

/-- `os.listdir(p)`: fails (FileNotFoundError) when `p` does not resolve to
an existing directory. -/
def osListdir (fs : LocalFS) (p : String) : Except String (List String) :=
  let a := osAbs fs p
  if a ∈ fs.dirs then
    .ok (childNames a (fs.dirs ++ fs.files.map Prod.fst))
  else .error "FileNotFoundError"

/-- `os.makedirs(p)` with the EEXIST-swallowing wrapper used by
`SSHChannel.pull_file`: ensures the directory exists, touching no file. -/
def osMakedirs (fs : LocalFS) (p : String) : LocalFS :=
  let a := osAbs fs p
  if a ∈ fs.dirs then fs else { fs with dirs := a :: fs.dirs }

/-- `sftp_client.stat` probe used by `push_directory`: any existing entry. -/
def sftpStat (r : RemoteFS) (p : String) : Bool :=
  p ∈ r.dirs ∨ p ∈ r.files.map Prod.fst

/-- `sftp_client.mkdir` as used after a failed stat probe: an SFTP mkdir of a
fresh path whose parent exists succeeds; when the parent directory is missing
the server reports errno 2. Existence of the target itself was just probed.
The root and relative single components are treated as creatable. -/
def sftpMkdir (r : RemoteFS) (p : String) : Except ChannelError RemoteFS :=
  let parent := osPathDirname p
  if parent = "" ∨ parent = "/" ∨ parent ∈ r.dirs then
    .ok { r with dirs := p :: r.dirs }
  else .error .badScriptPath

/-- `SSHChannel.push_file` (ssh.py): `remote_dest = remote_dir + '/' +
basename`; a `mkdir(remote_dir)` attempt whose "directory exists" failure
(errno None) is swallowed, errno 2 becomes `BadScriptPath`; then `put`
followed by `chmod(remote_dest, 0o777)`, any failure there being
`FileCopyException`. (Permission failures, errno 13, are outside this
filesystem model.) -/
def sshPushFile (l : LocalFS) (r : RemoteFS) (local_source remote_dir : String) :
    Except ChannelError (RemoteFS × String) :=
  let remote_dest := remote_dir ++ "/" ++ osPathBasename local_source
  let step1 : Except ChannelError RemoteFS :=
    if remote_dir ∈ r.dirs then .ok r else sftpMkdir r remote_dir
  match step1 with
  | .error e => .error e
  | .ok r1 =>
    match l.files.lookup (osAbs l local_source) with
    | none => .error .fileCopyException
    | some f =>
      .ok ({ r1 with
              files := setFile r1.files remote_dest
                { contents := f.contents, mode := 511 } },
           remote_dest)

/-- `SSHChannel.pull_file` (ssh.py): `local_dest = local_dir + '/' +
basename`; `os.makedirs(local_dir)` (EEXIST swallowed); then, **before** any
transfer, raise `FileExists` if `os.path.exists(local_dest)`; otherwise
`sftp_client.get`, whose failure is `FileCopyException`. The first component
is the local filesystem as the call leaves it (also on error). -/
def sshPullFile (l : LocalFS) (r : RemoteFS) (remote_source local_dir : String) :
    LocalFS × Except ChannelError String :=
  let local_dest := local_dir ++ "/" ++ osPathBasename remote_source
  let l1 := osMakedirs l local_dir
  if (l1.files.lookup (osAbs l1 local_dest)).isSome then
    (l1, .error .fileExists)
  else
    match r.files.lookup remote_source with
    | none => (l1, .error .fileCopyException)
    | some f =>
      ({ l1 with
          files := setFile l1.files (osAbs l1 local_dest)
            { contents := f.contents, mode := 420 } },
       .ok local_dest)

/-- `SSHChannel.push_directory` (ssh.py), with a recursion-depth fuel. For a
directory source: `_, directory_name = os.path.split(local_source)`;
`dest = remote_dir + '/' + directory_name`; the stat/mkdir probe and the
listing are performed on `directory_name` itself (as written in the source,
not on `local_source`/`dest`); each listed entry is recursed into as
`os.path.join(local_source, filename)` towards `dest`. A file source is
delegated to `push_file`. The surrounding `try/except` turns every failure
into `FileCopyException`. -/
def pushDirectory (fuel : Nat) (l : LocalFS) (r : RemoteFS)
    (local_source remote_dir : String) : Except ChannelError RemoteFS :=
  match fuel with
  | 0 => .error .fileCopyException
  | fuel + 1 =>
    let res : Except ChannelError RemoteFS :=
      if osIsDir l local_source then
        let directory_name := (osPathSplit local_source).2
        let dest := remote_dir ++ "/" ++ directory_name
        let step1 : Except ChannelError RemoteFS :=
          if sftpStat r directory_name then .ok r
          else sftpMkdir r directory_name
        match step1 with
        | .error _ => .error .fileCopyException
        | .ok r1 =>
          match osListdir l directory_name with
          | .error _ => .error .fileCopyException
          | .ok file_list =>
            file_list.foldlM
              (fun racc filename =>
                pushDirectory fuel l racc
                  (osPathJoin local_source filename) dest)
              r1
      else
        match sshPushFile l r local_source remote_dir with
        | .error _ => .error .fileCopyException
        | .ok (r1, _) => .ok r1
    res

/-- The record table of `KubernetesProvider`: `job_id ↦ {'status', 'pods'}`. -/
abbrev KubeResources := List (String × String × Nat)

/-- State of a `KubernetesProvider` instance: the `init_blocks` configuration
value, the `resources` record table and the last `self.deployment_name`
attribute (absent before the first creating submit). -/
structure KubeState where
  initBlocks : Nat
  resources : KubeResources
  deploymentName : Option String
  deriving DecidableEq, Repr

/-- A freshly constructed provider: empty record table. -/
def kubeInit (initBlocks : Nat) : KubeState :=
  { initBlocks := initBlocks, resources := [], deploymentName := none }

/-- `KubernetesProvider.submit` (kube.py). `t1` and `t2` are the `str()`
renderings of the two successive `time.time()` calls. When `self.resources`
is empty: `job_name = "{0}-{1}".format(job_name, time.time()).split(".")[0]`
(the split is applied to the whole joined string), `deployment_name =
'{}-{}-deployment'` from that name and the integer part of the second time,
the deployment is created externally and recorded with status `RUNNING` and
`init_blocks` pods. When `self.resources` is non-empty the body is skipped
and the existing `self.deployment_name` attribute is returned (in the model,
`none` stands for the attribute being unset, which in Python would be an
`AttributeError`; that situation is unreachable from `kubeInit`). -/
def kubeSubmit (s : KubeState) (t1 t2 : String) (jobName : String) :
    Option String × KubeState :=
  if s.resources.isEmpty then
    let jobName := (pySplit '.' (jobName ++ "-" ++ t1)).headD ""
    let deployment_name :=
      jobName ++ "-" ++ (pySplit '.' t2).headD "" ++ "-deployment"
    (some deployment_name,
     { s with
        resources := s.resources ++ [(deployment_name, ("RUNNING", s.initBlocks))],
        deploymentName := some deployment_name })
  else (s.deploymentName, s)

/-- `KubernetesProvider.status` (kube.py): calls the pure `_status` helper
and then returns `['RUNNING' for jid in job_ids]` — the source marks this
with "This is a hack"; the record table is not consulted. -/
def kubeStatus (_s : KubeState) (job_ids : List String) : List String :=
  job_ids.map (fun _ => "RUNNING")

/-- One `resources[job]['status'] = 'CANCELLED'` assignment. -/
def kubeMarkCancelled (resources : KubeResources) (job : String) : KubeResources :=
  resources.map (fun kv => if kv.1 = job then (kv.1, ("CANCELLED", kv.2.2)) else kv)

/-- The loop of `KubernetesProvider.cancel`: for each job the external
deployment deletion is issued (modelled as succeeding), then the record's
status is set to `CANCELLED`; a job missing from the table is a `KeyError`
that propagates, leaving the earlier mutations in place. -/
def kubeCancelGo (resources : KubeResources) :
    List String → Except String Unit × KubeResources
  | [] => (.ok (), resources)
  | job :: rest =>
    if (resources.lookup job).isSome then
      kubeCancelGo (kubeMarkCancelled resources job) rest
    else (.error "KeyError", resources)

/-- `KubernetesProvider.cancel` (kube.py): runs the loop and, when it
completes, returns `[True for i in job_ids]`; the second component is the
provider state after the call (also when the loop raised). -/
def kubeCancel (s : KubeState) (job_ids : List String) :
    Except String (List Bool) × KubeState :=
  match kubeCancelGo s.resources job_ids with
  | (.ok _, res) => (.ok (job_ids.map (fun _ => true)), { s with resources := res })
  | (.error e, res) => (.error e, { s with resources := res })

/-- `SimpleLauncher.__call__` (launchers.py): "Does no wrapping. Just returns
the command as-is". The unused `walltime` keyword is omitted. -/
def simpleLauncher (command : String) (tasks_per_node nodes_per_block : Nat) :
    String :=
  let _ := tasks_per_node
  let _ := nodes_per_block
  command

/-- `SingleNodeLauncher.__call__` (launchers.py): the template with
`{1} = task_blocks = tasks_per_node * nodes_per_block` and `{0} = command`
substituted. -/
def singleNodeLauncher (command : String) (tasks_per_node nodes_per_block : Nat) :
    String :=
  let task_blocks := tasks_per_node * nodes_per_block
  "export CORES=$(getconf _NPROCESSORS_ONLN)\necho \"Found cores : $CORES\"\nWORKERCOUNT="
    ++ toString task_blocks
    ++ "\n\nCMD ( ) \x7b\n"
    ++ command
    ++ "\n\x7d\nfor COUNT in $(seq 1 1 $WORKERCOUNT)\ndo\n    echo \"Launching worker: $COUNT\"\n    CMD &\ndone\nwait\necho \"All workers done\"\n"

/-- `GnuParallelLauncher.__call__` (launchers.py): `{3} = task_blocks`,
`{0} = command`, `{1} = tasks_per_node` (the `--jobs` ceiling). The
backslash before the newline in the template's `parallel` invocation is a
Python string-literal line continuation: both characters are dropped, so the
rendered script has the option list on one line. -/
def gnuParallelLauncher (command : String) (tasks_per_node nodes_per_block : Nat) :
    String :=
  let task_blocks := tasks_per_node * nodes_per_block
  "export CORES=$(getconf _NPROCESSORS_ONLN)\necho \"Found cores : $CORES\"\nWORKERCOUNT="
    ++ toString task_blocks
    ++ "\n\n# Deduplicate the nodefile\nSSHLOGINFILE=\"$JOBNAME.nodes\"\nif [ -z \"$PBS_NODEFILE\" ]; then\n    echo \"localhost\" > $SSHLOGINFILE\nelse\n    sort -u $PBS_NODEFILE > $SSHLOGINFILE\nfi\n\ncat << PARALLEL_CMD_EOF > cmd_$JOBNAME.sh\n"
    ++ command
    ++ "\nPARALLEL_CMD_EOF\nchmod u+x cmd_$JOBNAME.sh\n\n#file to contain the commands to parallel\nPFILE=cmd_$\x7bJOBNAME\x7d.sh.parallel\n\n# Truncate the file\ncp /dev/null $PFILE\n\nfor COUNT in $(seq 1 1 $WORKERCOUNT)\ndo\n    echo \"sh cmd_$JOBNAME.sh\" >> $PFILE\ndone\n\nparallel --env _ --joblog \"$JOBNAME.sh.parallel.log\"     --sshloginfile $SSHLOGINFILE --jobs "
    ++ toString tasks_per_node
    ++ " < $PFILE\n\necho \"All workers done\"\n"

/-- `MpiExecLauncher.__call__` (launchers.py): `{3} = task_blocks`,
`{0} = command`. -/
def mpiExecLauncher (command : String) (tasks_per_node nodes_per_block : Nat) :
    String :=
  let task_blocks := tasks_per_node * nodes_per_block
  "export CORES=$(getconf _NPROCESSORS_ONLN)\necho \"Found cores : $CORES\"\nWORKERCOUNT="
    ++ toString task_blocks
    ++ "\n\n# Deduplicate the nodefile\nHOSTFILE=\"$JOBNAME.nodes\"\nif [ -z \"$PBS_NODEFILE\" ]; then\n    echo \"localhost\" > $HOSTFILE\nelse\n    sort -u $PBS_NODEFILE > $HOSTFILE\nfi\n\ncat << MPIEXEC_EOF > cmd_$JOBNAME.sh\n"
    ++ command
    ++ "\nMPIEXEC_EOF\nchmod u+x cmd_$JOBNAME.sh\n\nmpiexec --bind-to none -n $WORKERCOUNT --hostfile $HOSTFILE /usr/bin/sh cmd_$JOBNAME.sh\n\necho \"All workers done\"\n"

/-- `SrunLauncher.__call__` (launchers.py): `{1} = task_blocks` (used twice),
`{0} = command`. -/
def srunLauncher (command : String) (tasks_per_node nodes_per_block : Nat) :
    String :=
  let task_blocks := tasks_per_node * nodes_per_block
  "export CORES=$SLURM_CPUS_ON_NODE\nexport NODES=$SLURM_JOB_NUM_NODES\n\necho \"Found cores : $CORES\"\necho \"Found nodes : $NODES\"\nWORKERCOUNT="
    ++ toString task_blocks
    ++ "\n\ncat << SLURM_EOF > cmd_$SLURM_JOB_NAME.sh\n"
    ++ command
    ++ "\nSLURM_EOF\nchmod a+x cmd_$SLURM_JOB_NAME.sh\n\nTASKBLOCKS="
    ++ toString task_blocks
    ++ "\n\nsrun --ntasks $TASKBLOCKS -l bash cmd_$SLURM_JOB_NAME.sh\n\necho \"Done\"\n"

/-- `SrunMPILauncher.__call__` (launchers.py): `{1} = task_blocks` (used
twice), `{0} = command`. -/
def srunMPILauncher (command : String) (tasks_per_node nodes_per_block : Nat) :
    String :=
  let task_blocks := tasks_per_node * nodes_per_block
  "export CORES=$SLURM_CPUS_ON_NODE\nexport NODES=$SLURM_JOB_NUM_NODES\n\necho \"Found cores : $CORES\"\necho \"Found nodes : $NODES\"\nWORKERCOUNT="
    ++ toString task_blocks
    ++ "\n\ncat << SLURM_EOF > cmd_$SLURM_JOB_NAME.sh\n"
    ++ command
    ++ "\nSLURM_EOF\nchmod a+x cmd_$SLURM_JOB_NAME.sh\n\nTASKBLOCKS="
    ++ toString task_blocks
    ++ "\n\n# If there are more taskblocks to be launched than nodes use\nif (( \"$TASKBLOCKS\" > \"$NODES\" ))\nthen\n    echo \"TaskBlocks:$TASKBLOCKS > Nodes:$NODES\"\n    CORES_PER_BLOCK=$(($NODES * $CORES / $TASKBLOCKS))\n    for blk in $(seq 1 1 $TASKBLOCKS):\n    do\n        srun --ntasks $CORES_PER_BLOCK -l bash cmd_$SLURM_JOB_NAME.sh &\n    done\n    wait\nelse\n    # A Task block could be integer multiples of Nodes\n    echo \"TaskBlocks:$TASKBLOCKS <= Nodes:$NODES\"\n    NODES_PER_BLOCK=$(( $NODES / $TASKBLOCKS ))\n    for blk in $(seq 1 1 $TASKBLOCKS):\n    do\n        srun --exclusive --nodes $NODES_PER_BLOCK -l bash cmd_$SLURM_JOB_NAME.sh &\n    done\n    wait\n\nfi\n\n\necho \"Done\"\n"

/-- `AprunLauncher.__call__` (launchers.py), with the instance's `overrides`
string: `{1} = tasks_per_block`, `{0} = command`, plus the keyword
substitutions. The template begins with a newline. -/
def aprunLauncher (overrides command : String)
    (tasks_per_node nodes_per_block : Nat) : String :=
  let tasks_per_block := tasks_per_node * nodes_per_block
  "\nWORKERCOUNT="
    ++ toString tasks_per_block
    ++ "\n\ncat << APRUN_EOF > cmd_$JOBNAME.sh\n"
    ++ command
    ++ "\nAPRUN_EOF\nchmod a+x cmd_$JOBNAME.sh\n\naprun -n "
    ++ toString tasks_per_block
    ++ " -N "
    ++ toString tasks_per_node
    ++ " "
    ++ overrides
    ++ " /bin/bash cmd_$JOBNAME.sh &\nwait\n\necho \"Done\"\n"

/-- Invariant of a `KubernetesProvider` instance: either no submit has
happened yet (no deployment name, empty table), or the remembered deployment
name is a key of the record table. -/
def kubeInv (s : KubeState) : Prop :=
  (s.deploymentName = none ∧ s.resources = [])
  ∨ ∃ id, s.deploymentName = some id ∧ (s.resources.lookup id).isSome = true

/-- Local tree `{/tmp/data/a/b.txt, /tmp/data/a/c/d.txt}` with the process
cwd at `/home/u`, which contains no entry named `a`. -/
def pushDirExampleLocal : LocalFS :=
  { cwd := "/home/u",
    dirs := ["/tmp/data", "/tmp/data/a", "/tmp/data/a/c"],
    files := [("/tmp/data/a/b.txt", { contents := "B", mode := 420 }),
              ("/tmp/data/a/c/d.txt", { contents := "D", mode := 420 })] }

/-- The same tree, but the cwd happens to contain an unrelated empty
directory also named `a`. -/
def pushDirExampleLocalStray : LocalFS :=
  { pushDirExampleLocal with dirs := "/home/u/a" :: pushDirExampleLocal.dirs }

/-- An empty remote target directory. -/
def pushDirExampleRemote : RemoteFS := { dirs := ["/remote"], files := [] }

/-- A local directory `/l` already holding a file `g`. -/
def pullFileExampleLocal : LocalFS :=
  { cwd := "/", dirs := ["/l"], files := [("/l/g", { contents := "OLD", mode := 420 })] }

/-- A remote file `/r/g` whose base name collides with the local `g`. -/
def pullFileExampleRemote : RemoteFS :=
  { dirs := [], files := [("/r/g", { contents := "NEW", mode := 420 })] }

/-!
Helper lemmas shared by the verification below.
-/

theorem lookupAppend {β : Type} (l1 l2 : List (String × β)) (k : String) :
    (l1 ++ l2).lookup k = (l1.lookup k).or (l2.lookup k) := by
  induction l1 with
  | nil => simp [List.lookup]
  | cons a t ih =>
    by_cases h : k == a.1 <;> simp [List.lookup, h, ih]

theorem lookupMapKeyed (g : String → String → String) (d : Dict) (k : String) :
    (d.map (fun kv => (kv.1, g kv.1 kv.2))).lookup k
      = (d.lookup k).map (fun v => g k v) := by
  induction d with
  | nil => simp [List.lookup]
  | cons a t ih =>
    by_cases h : k == a.1
    · have hk : k = a.1 := by simpa using h
      subst hk
      simp [List.lookup]
    · simp [List.lookup, h, ih]

theorem lookupFilterKey (p : String → Bool) (d : Dict) (k : String) :
    (d.filter (fun kv => p kv.1)).lookup k = if p k then d.lookup k else none := by
  induction d with
  | nil => simp [List.lookup]
  | cons a t ih =>
    by_cases h : k == a.1
    · have hk : k = a.1 := by simpa using h
      subst hk
      by_cases hp : p a.1 <;> simp [List.filter, List.lookup, hp, ih]
    · by_cases hp : p a.1 <;> simp [List.filter, List.lookup, h, hp, ih]

/-- Looking a key up after a Python `dict.update`: the second dict wins. -/
theorem lookup_pyDictUpdate (d1 d2 : Dict) (k : String) :
    (pyDictUpdate d1 d2).lookup k = (d2.lookup k).or (d1.lookup k) := by
  unfold pyDictUpdate
  rw [lookupAppend, lookupMapKeyed (fun a b => (d2.lookup a).getD b),
    lookupFilterKey (fun a => (d1.lookup a).isNone)]
  cases h1 : d1.lookup k <;> cases h2 : d2.lookup k <;> simp [h1, h2]

theorem osMakedirs_files (l : LocalFS) (p : String) :
    (osMakedirs l p).files = l.files := by
  simp only [osMakedirs]; split <;> rfl

theorem osMakedirs_cwd (l : LocalFS) (p : String) :
    (osMakedirs l p).cwd = l.cwd := by
  simp only [osMakedirs]; split <;> rfl

theorem osAbs_osMakedirs (l : LocalFS) (p x : String) :
    osAbs (osMakedirs l p) x = osAbs l x := by
  unfold osAbs; rw [osMakedirs_cwd]

theorem kubeMarkCancelled_keys (res : KubeResources) (j : String) :
    (kubeMarkCancelled res j).map Prod.fst = res.map Prod.fst := by
  induction res with
  | nil => rfl
  | cons a t ih =>
    by_cases h : a.1 = j <;> simp [kubeMarkCancelled, h] at ih ⊢ <;> exact ih

theorem kubeMarkCancelled_lookup_isSome (res : KubeResources) (j k : String) :
    ((kubeMarkCancelled res j).lookup k).isSome = (res.lookup k).isSome := by
  induction res with
  | nil => rfl
  | cons a t ih =>
    rcases a with ⟨a1, st, pods⟩
    by_cases hj : a1 = j
    · subst hj
      have hmap : kubeMarkCancelled ((a1, st, pods) :: t) a1
          = (a1, "CANCELLED", pods) :: kubeMarkCancelled t a1 := by
        simp [kubeMarkCancelled]
      rw [hmap]
      by_cases hk : k == a1
      · simp [List.lookup, hk]
      · simp only [List.lookup, hk]
        exact ih
    · have hmap : kubeMarkCancelled ((a1, st, pods) :: t) j
          = (a1, st, pods) :: kubeMarkCancelled t j := by
        simp [kubeMarkCancelled, hj]
      rw [hmap]
      by_cases hk : k == a1
      · simp [List.lookup, hk]
      · simp only [List.lookup, hk]
        exact ih

theorem kubeCancelGo_keys (js : List String) : ∀ res : KubeResources,
    (kubeCancelGo res js).2.map Prod.fst = res.map Prod.fst := by
  induction js with
  | nil => intro res; rfl
  | cons j rest ih =>
    intro res
    by_cases h : (res.lookup j).isSome
    · simp [kubeCancelGo, h, ih (kubeMarkCancelled res j), kubeMarkCancelled_keys]
    · simp [kubeCancelGo, h]

theorem kubeCancelGo_lookup_isSome (js : List String) : ∀ (res : KubeResources)
    (k : String), ((kubeCancelGo res js).2.lookup k).isSome = (res.lookup k).isSome := by
  induction js with
  | nil => intro res k; rfl
  | cons j rest ih =>
    intro res k
    by_cases h : (res.lookup j).isSome
    · simp [kubeCancelGo, h, ih (kubeMarkCancelled res j), kubeMarkCancelled_lookup_isSome]
    · simp [kubeCancelGo, h]

theorem kubeCancel_resources (s : KubeState) (ids : List String) :
    (kubeCancel s ids).2.resources = (kubeCancelGo s.resources ids).2 := by
  unfold kubeCancel
  rcases h : kubeCancelGo s.resources ids with ⟨e, res⟩
  cases e <;> simp

/-- Any string is a substring of a concatenation having it as the second
chunk (append normalised to the right). -/
theorem infixSecondChunk (a m r : List Char) : m <:+: a ++ (m ++ r) := by
  exact ⟨a, r, by simp⟩

/-- C1: the silent-failure contract of `execute_wait`. `LocalChannel` honours
it: a failed or timed-out execution yields `(-1, None, None)` without
raising. `SSHChannel.execute_wait` does not: it has no exception handler, so
the failure propagates to the caller instead of becoming the sentinel —
witnessed here at a concrete timed-out execution. -/
theorem execute_wait_failure_contract :
    localExecuteWait (ExecOutcome.fail "timeout") = (-1, none, none)
    ∧ (sshExecuteWait [] "sleep 60" [] (ExecOutcome.fail "timeout")).1
        = Except.error "timeout"
    ∧ ¬ (sshExecuteWait [] "sleep 60" [] (ExecOutcome.fail "timeout")).1
        = Except.ok (-1, "", "") := by
  refine ⟨rfl, rfl, fun h => Except.noConfusion h⟩

/-- C2: `KubernetesProvider.submit` called when the resource table is already
non-empty (at capacity) returns the previously issued deployment name, not
the null value its own docstring promises. -/
theorem kube_submit_at_capacity_returns_previous_id :
    (kubeSubmit (kubeSubmit (kubeInit 4) "100.5" "101.2" "parsl.auto").2
        "200.1" "201.9" "parsl.auto").1 = some "parsl-101-deployment"
    ∧ (kubeSubmit (kubeSubmit (kubeInit 4) "100.5" "101.2" "parsl.auto").2
        "200.1" "201.9" "parsl.auto").1 ≠ none := by
  refine ⟨by decide, by decide⟩

/-- C3: after a successful `cancel([j])` (which returns `[True]` and records
status `CANCELLED` for `j`), `status([j])` still returns `["RUNNING"]`: the
status method ignores the record table. -/
theorem kube_status_ignores_cancelled_record :
    (kubeCancel (kubeSubmit (kubeInit 4) "100.5" "101.2" "parsl.auto").2
        ["parsl-101-deployment"]).1 = Except.ok [true]
    ∧ ((kubeCancel (kubeSubmit (kubeInit 4) "100.5" "101.2" "parsl.auto").2
        ["parsl-101-deployment"]).2.resources.lookup "parsl-101-deployment")
        = some ("CANCELLED", 4)
    ∧ kubeStatus (kubeCancel (kubeSubmit (kubeInit 4) "100.5" "101.2" "parsl.auto").2
        ["parsl-101-deployment"]).2 ["parsl-101-deployment"] = ["RUNNING"]
    ∧ (["RUNNING"] : List String) ≠ ["CANCELLED"] := by
  refine ⟨rfl, by decide, by decide, by decide⟩

/-- C4 counterexample: with channel-level `{A: 1}` and per-call `{A: 2}`, the
command run by `LocalChannel` sees `A=2` while the command run by
`SSHChannel` sees `A=1`: the two channels do not expose identical values and
call-time does not win on `SSHChannel`. -/
theorem env_merge_precedence_cex :
    (localObservableEnv [] [("A", "1")] [("A", "2")]).lookup "A" = some "2"
    ∧ (sshMergedEnv [("A", "1")] [("A", "2")]).lookup "A" = some "1"
    ∧ (some "2" : Option String) ≠ some "1" := by
  refine ⟨by decide, by decide, by decide⟩

/-- C4 amended: `LocalChannel` merges channel-level defaults with per-call
overrides with the per-call value winning on collision, but
`SSHChannel.prepend_envs` applies the channel-level entries over the per-call
ones, so the channel-level value wins there; the channels agree only on keys
where the two mappings do not collide. -/
theorem env_merge_precedence (osEnviron channelEnvs callEnvs : Dict) (k : String) :
    (localObservableEnv osEnviron channelEnvs callEnvs).lookup k
      = (callEnvs.lookup k).or ((pyDictUpdate osEnviron channelEnvs).lookup k)
    ∧ (sshMergedEnv channelEnvs callEnvs).lookup k
      = (channelEnvs.lookup k).or (callEnvs.lookup k) := by
  exact ⟨lookup_pyDictUpdate (pyDictUpdate osEnviron channelEnvs) callEnvs k,
    lookup_pyDictUpdate callEnvs channelEnvs k⟩

/-- C5 counterexample: two distinct calls to submit (at different times)
return the same job identifier, so identifiers are not unique per call. -/
theorem kube_submit_duplicate_id_cex :
    (kubeSubmit (kubeInit 4) "100.5" "101.2" "parsl.auto").1
      = some "parsl-101-deployment"
    ∧ (kubeSubmit (kubeSubmit (kubeInit 4) "100.5" "101.2" "parsl.auto").2
        "200.1" "201.9" "parsl.auto").1 = some "parsl-101-deployment" := by
  refine ⟨by decide, by decide⟩

/-- C5 amended: identifiers are not unique across submit calls (every
at-capacity call repeats the recorded deployment name), but the
record-table half of the claim holds: every identifier submit returns is a
key of the post-call record table, the invariant is preserved, and cancel
never removes entries (keys and key-membership are preserved), so a returned
identifier stays in the table — nothing in this provider ever reaps it. -/
theorem kube_submit_id_recorded (s : KubeState) (t1 t2 jobName : String)
    (h : kubeInv s) :
    (∀ id, (kubeSubmit s t1 t2 jobName).1 = some id →
        ((kubeSubmit s t1 t2 jobName).2.resources.lookup id).isSome = true)
    ∧ kubeInv (kubeSubmit s t1 t2 jobName).2
    ∧ (∀ ids, (kubeCancel s ids).2.resources.map Prod.fst = s.resources.map Prod.fst)
    ∧ (∀ ids id0, (s.resources.lookup id0).isSome = true →
        ((kubeCancel s ids).2.resources.lookup id0).isSome = true) := by
  refine ⟨?_, ?_, ?_, ?_⟩
  · intro id hid
    by_cases hres : s.resources.isEmpty
    · have hempty : s.resources = [] := by simpa using hres
      simp only [kubeSubmit, hres, if_true] at hid ⊢
      rw [hempty]
      simp at hid
      simp [List.lookup, ← hid]
    · have hres' : s.resources.isEmpty = false := by simpa using hres
      simp only [kubeSubmit, hres', Bool.false_eq_true, if_false] at hid ⊢
      rcases h with ⟨hdn, _⟩ | ⟨id0, hdn0, hlk⟩
      · rw [hdn] at hid
        exact absurd hid (by simp)
      · rw [hdn0] at hid
        simp at hid
        rw [← hid]
        exact hlk
  · by_cases hres : s.resources.isEmpty
    · have hempty : s.resources = [] := by simpa using hres
      simp only [kubeSubmit, hres, if_true]
      refine Or.inr ⟨_, rfl, ?_⟩
      rw [hempty]
      simp [List.lookup]
    · have hres' : s.resources.isEmpty = false := by simpa using hres
      simp only [kubeSubmit, hres', Bool.false_eq_true, if_false]
      exact h
  · intro ids
    rw [kubeCancel_resources]
    exact kubeCancelGo_keys ids s.resources
  · intro ids id0 hlk
    rw [kubeCancel_resources, kubeCancelGo_lookup_isSome]
    exact hlk

/-- C5 witness: the invariant holds of a fresh provider, and the identifier
issued by its first submit is indeed recorded. -/
theorem kube_submit_id_recorded_witness :
    kubeInv (kubeInit 4)
    ∧ (((kubeSubmit (kubeInit 4) "100.5" "101.2" "parsl.auto").2.resources.lookup
        "parsl-101-deployment").isSome = true) := by
  have h := kube_submit_id_recorded (kubeInit 4) "100.5" "101.2" "parsl.auto"
    (Or.inl ⟨rfl, rfl⟩)
  exact ⟨Or.inl ⟨rfl, rfl⟩, h.1 "parsl-101-deployment" (by decide)⟩

/-- C6: pushing the tree `{a/b.txt, a/c/d.txt}` fails outright when the
process cwd holds no entry named `a` (the code lists `directory_name`, not
`local_source`), and when the cwd happens to hold an empty directory `a` the
push "succeeds" while transferring no file at all and creating a relative
remote directory `a` instead of one under the destination — so no pull can
reproduce the pushed tree. -/
theorem push_directory_wrong_listing :
    pushDirectory 5 pushDirExampleLocal pushDirExampleRemote "/tmp/data/a" "/remote"
      = Except.error ChannelError.fileCopyException
    ∧ pushDirectory 5 pushDirExampleLocalStray pushDirExampleRemote "/tmp/data/a" "/remote"
      = Except.ok { dirs := ["a", "/remote"], files := [] } := by
  exact ⟨rfl, rfl⟩

/-- C8: when the local destination directory already holds a file with the
same base name as the remote source, `pull_file` raises the name-collision
error (`FileExists`, the spec's PathConflictError) before any transfer, and
the local file map — including the pre-existing file — is left unchanged. -/
theorem pull_file_conflict_raises_and_preserves (l : LocalFS) (r : RemoteFS)
    (src dir : String) (f : FileRec)
    (h : l.files.lookup (osAbs l (dir ++ "/" ++ osPathBasename src)) = some f) :
    (sshPullFile l r src dir).2 = Except.error ChannelError.fileExists
    ∧ (sshPullFile l r src dir).1.files = l.files := by
  have hfs := osMakedirs_files l dir
  have habs := osAbs_osMakedirs l dir (dir ++ "/" ++ osPathBasename src)
  constructor
  · simp only [sshPullFile]
    rw [hfs, habs, h]
    simp
  · simp only [sshPullFile]
    rw [hfs, habs, h]
    simp [osMakedirs_files]

/-- C8 witness: a concrete conflicting pull errors with `FileExists` and
leaves the old file in place. -/
theorem pull_file_conflict_raises_and_preserves_witness :
    pullFileExampleLocal.files.lookup (osAbs pullFileExampleLocal
        ("/l" ++ "/" ++ osPathBasename "/r/g")) = some { contents := "OLD", mode := 420 }
    ∧ (sshPullFile pullFileExampleLocal pullFileExampleRemote "/r/g" "/l").2
        = Except.error ChannelError.fileExists
    ∧ (sshPullFile pullFileExampleLocal pullFileExampleRemote "/r/g" "/l").1.files
        = pullFileExampleLocal.files := by
  have h := pull_file_conflict_raises_and_preserves pullFileExampleLocal
    pullFileExampleRemote "/r/g" "/l" { contents := "OLD", mode := 420 } (by decide)
  exact ⟨by decide, h.1, h.2⟩

/-- C9 counterexample: `SimpleLauncher` returns the command unchanged, so the
task count `2 * 3 = 6` does not appear anywhere in its output — refuting the
claim for "every strategy". -/
theorem simple_launcher_no_taskcount_cex :
    simpleLauncher "hello" 2 3 = "hello"
    ∧ ¬ ((toString (2 * 3)).data <:+: (simpleLauncher "hello" 2 3).data) := by
  exact ⟨rfl, by decide⟩

set_option maxRecDepth 4096 in
/-- C9 amended: every launcher strategy is a pure function of its arguments
(each is embedded as a Lean function, so equal inputs give equal outputs by
definition), and every script-generating strategy embeds
`tasksPerNode * nodesPerBlock` verbatim in its output; `SimpleLauncher`
however does no wrapping and returns the command as-is, with no task count
in it. -/
theorem launcher_taskcount_verbatim (c o : String) (t n : Nat) :
    simpleLauncher c t n = c
    ∧ (toString (t * n)).data <:+: (singleNodeLauncher c t n).data
    ∧ (toString (t * n)).data <:+: (gnuParallelLauncher c t n).data
    ∧ (toString (t * n)).data <:+: (mpiExecLauncher c t n).data
    ∧ (toString (t * n)).data <:+: (srunLauncher c t n).data
    ∧ (toString (t * n)).data <:+: (srunMPILauncher c t n).data
    ∧ (toString (t * n)).data <:+: (aprunLauncher o c t n).data := by
  refine ⟨rfl, ?_, ?_, ?_, ?_, ?_, ?_⟩
  · unfold singleNodeLauncher
    simp only [String.data_append, List.append_assoc]
    exact infixSecondChunk _ _ _
  · unfold gnuParallelLauncher
    simp only [String.data_append, List.append_assoc]
    exact infixSecondChunk _ _ _
  · unfold mpiExecLauncher
    simp only [String.data_append, List.append_assoc]
    exact infixSecondChunk _ _ _
  · unfold srunLauncher
    simp only [String.data_append, List.append_assoc]
    exact infixSecondChunk _ _ _
  · unfold srunMPILauncher
    simp only [String.data_append, List.append_assoc]
    exact infixSecondChunk _ _ _
  · unfold aprunLauncher
    simp only [String.data_append, List.append_assoc]
    exact infixSecondChunk _ _ _

/-- C10: `prepend_envs` updates the caller's per-call dict in place with the
channel-level entries, and `execute_wait` passes the caller's dict straight
to it — so after either call every channel-level binding is visible in the
caller's mapping. -/
theorem prepend_envs_mutates_caller_dict (selfEnvs : Dict) (cmd : String)
    (env : Dict) (o : ExecOutcome) (k v : String)
    (h : selfEnvs.lookup k = some v) :
    ((prependEnvs selfEnvs cmd env).2).lookup k = some v
    ∧ ((sshExecuteWait selfEnvs cmd env o).2).lookup k = some v := by
  have hp : (prependEnvs selfEnvs cmd env).2 = pyDictUpdate env selfEnvs := by
    simp only [prependEnvs]
    split <;> rfl
  have hs : (sshExecuteWait selfEnvs cmd env o).2
      = (prependEnvs selfEnvs cmd env).2 := rfl
  constructor
  · rw [hp, lookup_pyDictUpdate, h]
    rfl
  · rw [hs, hp, lookup_pyDictUpdate, h]
    rfl

/-- C10 witness: a channel with `{A: 1}` leaves `A=1` in the caller's
initially empty dict after `prepend_envs` and after `execute_wait`. -/
theorem prepend_envs_mutates_caller_dict_witness :
    ([("A", "1")] : Dict).lookup "A" = some "1"
    ∧ ((prependEnvs [("A", "1")] "ls" []).2).lookup "A" = some "1"
    ∧ ((sshExecuteWait [("A", "1")] "ls" [] (ExecOutcome.ok 0 "" "")).2).lookup "A"
        = some "1" := by
  have h := prepend_envs_mutates_caller_dict [("A", "1")] "ls" []
    (ExecOutcome.ok 0 "" "") "A" "1" (by decide)
  exact ⟨by decide, h.1, h.2⟩

end Libsubmit
